import Mathlib

/-!
Shallow embedding of `src/desktop/src-tauri/src/main.rs` (doctown-v13):
a single-session PTY manager exposing `spawn_pty`, `write_pty` and
`resize_pty`, plus two background tasks (an output relay reading from the
PTY master and an exit watcher waiting on the child process) and an upward
directory walk that locates the project root.

External collaborators (the portable_pty backend, the OS process, the
Tauri event sink) are modelled as oracles: each fallible call's outcome is
a parameter, and the control flow around those outcomes is translated
line by line from the Rust source.
-/

namespace Doctown

/-- A byte value (0..255) as a natural number. Rust `u8`. -/
abbrev Byte := Nat

/-- `portable_pty::PtySize`: the dimensions record handed to the backend
by `openpty` and `resize`. All four fields are `u16` in Rust. -/
structure PtySize where
  rows : Nat
  cols : Nat
  pixel_width : Nat
  pixel_height : Nat
deriving DecidableEq

/-- The boxed writer taken from the PTY master (`pair.master.take_writer()`).
Its observable behaviour is the outcome of `write_all` on a given byte
sequence and the outcome of `flush`; both are I/O oracles. -/
structure Writer where
  writeOutcome : List Byte → Except String Unit
  flushOutcome : Except String Unit

/-- The PTY master handle retained for resizing. Its observable behaviour
is the outcome of `resize` for a given `PtySize` request. -/
structure MasterPty where
  resizeOutcome : PtySize → Except String Unit

/-- The Tauri-managed `PtyState`: one writer slot and one master slot,
each independently nullable (`Arc<Mutex<Option<...>>>` in the source). -/
structure PtyState where
  writer : Option Writer
  master : Option MasterPty

/-- The PTY pair returned by a successful `openpty`, reduced to the two
handles that `spawn_pty` ends up storing: the writer extracted by
`take_writer` and the master itself. -/
structure PtyPair where
  writer : Writer
  master : MasterPty

/-- Oracle outcomes for the four fallible calls `spawn_pty` makes, in
source order: `openpty`, `slave.spawn_command`, `master.try_clone_reader`,
`master.take_writer`. Each Rust error is mapped through `e.to_string()`,
so outcomes carry `String` errors. -/
structure SpawnEnv where
  openptyResult : PtySize → Except String PtyPair
  spawnResult : Except String Unit
  cloneReaderResult : Except String Unit
  takeWriterResult : Except String Unit

/-- What a call to `spawn_pty` produces: the `Result<(), String>` returned
to the caller, the session state after the call, and the `PtySize` request
issued to the backend's `openpty`. -/
structure SpawnOutcome where
  result : Except String Unit
  state : PtyState
  request : PtySize

/-- `spawn_pty(cols, rows)` (main.rs lines 16-97), state part. The four
fallible steps run in source order and each early-returns its error via
`?`; only after all four succeed are the writer and master slots stored.
The infallible working-directory walk between `openpty` and
`spawn_command` is modelled separately by `resolveCwd`, and the two
spawned background threads by `relayEvents` and `watcherEvents`. -/
def spawn_pty (cols rows : Nat) (env : SpawnEnv) (s : PtyState) : SpawnOutcome :=
  let size : PtySize := { rows := rows, cols := cols, pixel_width := 0, pixel_height := 0 }
  match env.openptyResult size with
  | .error e => { result := .error e, state := s, request := size }
  | .ok pair =>
    match env.spawnResult with
    | .error e => { result := .error e, state := s, request := size }
    | .ok _ =>
      match env.cloneReaderResult with
      | .error e => { result := .error e, state := s, request := size }
      | .ok _ =>
        match env.takeWriterResult with
        | .error e => { result := .error e, state := s, request := size }
        | .ok _ =>
          { result := .ok ()
            state := { writer := some pair.writer, master := some pair.master }
            request := size }

/-- The session states observable at the atomic boundaries of the two
stores in `spawn_pty` (main.rs lines 63-68): the writer slot is assigned
first under its own mutex, then the master slot under its own mutex, so a
concurrent `write_pty`/`resize_pty` can observe the state before both
stores, between them, or after both. -/
def spawnStateTrace (pair : PtyPair) (s : PtyState) : List PtyState :=
  [s,
   { s with writer := some pair.writer },
   { writer := some pair.writer, master := some pair.master }]

/-- What a call to `write_pty` produces besides the post state: the
`Result<(), String>`, the bytes that were handed to the writer's sink by a
successful `write_all` (empty when no write happened or `write_all`
errored), and whether `flush` completed. -/
structure WriteEffect where
  result : Except String Unit
  sinkBytes : List Byte
  flushed : Bool

/-- `write_pty(data)` (main.rs lines 100-108). `data` is the UTF-8 byte
sequence of the Rust `String` argument (`data.as_bytes()`). If the writer
slot is empty the body is skipped and `Ok(())` is returned; otherwise
`write_all(data)` then `flush()` run, each error propagating via `?`.
The slots themselves are never reassigned. -/
def write_pty (data : List Byte) (s : PtyState) : WriteEffect × PtyState :=
  match s.writer with
  | none => ({ result := .ok (), sinkBytes := [], flushed := false }, s)
  | some w =>
    match w.writeOutcome data with
    | .error e => ({ result := .error e, sinkBytes := [], flushed := false }, s)
    | .ok _ =>
      match w.flushOutcome with
      | .error e => ({ result := .error e, sinkBytes := data, flushed := false }, s)
      | .ok _ => ({ result := .ok (), sinkBytes := data, flushed := true }, s)

/-- What a call to `resize_pty` produces besides the post state: the
`Result<(), String>` and the list of resize requests issued to the PTY
backend during the call. -/
structure ResizeEffect where
  result : Except String Unit
  requests : List PtySize

/-- `resize_pty(cols, rows)` (main.rs lines 111-123). If the master slot
is empty the body is skipped and `Ok(())` is returned; otherwise exactly
one `resize` request with the given cells and zero pixel fields is issued,
its error propagating via `?`. The slots are never reassigned. -/
def resize_pty (cols rows : Nat) (s : PtyState) : ResizeEffect × PtyState :=
  match s.master with
  | none => ({ result := .ok (), requests := [] }, s)
  | some m =>
    let size : PtySize := { rows := rows, cols := cols, pixel_width := 0, pixel_height := 0 }
    match m.resizeOutcome size with
    | .error e => ({ result := .error e, requests := [size] }, s)
    | .ok _ => ({ result := .ok (), requests := [size] }, s)

/-! ## Events emitted to the Tauri sink -/

/-- An event emitted to the frontend sink via `app_handle.emit`: either a
`pty-output` event carrying a lossily decoded chunk, or a `pty-exit` event
carrying the child's exit code (`u32` in portable_pty). -/
inductive Event where
  | output (payload : String)
  | exit (code : Nat)
deriving DecidableEq

/-- Whether an event is a `pty-output` event. -/
def Event.isOutput : Event → Bool
  | .output _ => true
  | .exit _ => false

/-- Whether an event is a `pty-exit` event. -/
def Event.isExit : Event → Bool
  | .output _ => false
  | .exit _ => true

/-! ## Lossy UTF-8 decoding (`String::from_utf8_lossy`)

Rust replaces each maximal invalid subpart of the byte stream with one
U+FFFD replacement character; valid sequences decode to their scalar
value. `decodeStep` consumes one such unit: given the first byte and the
remaining bytes it yields the emitted character and how many bytes beyond
the first were consumed. -/

/-- A UTF-8 continuation byte: `0x80..=0xBF`. -/
def isCont (b : Byte) : Bool := 0x80 ≤ b && b ≤ 0xBF

/-- The U+FFFD replacement character. -/
def replChar : Char := Char.ofNat 0xFFFD

/-- One step of Rust's lossy UTF-8 decoder: the character produced for
the unit starting at `b` and the number of bytes consumed after `b`
(the maximal valid subpart of an invalid sequence is skipped). -/
def decodeStep (b : Byte) (rest : List Byte) : Char × Nat :=
  if b < 0x80 then (Char.ofNat b, 0)
  else if 0xC2 ≤ b && b ≤ 0xDF then
    match rest with
    | b1 :: _ =>
      if isCont b1 then (Char.ofNat ((b - 0xC0) * 0x40 + (b1 - 0x80)), 1)
      else (replChar, 0)
    | [] => (replChar, 0)
  else if 0xE0 ≤ b && b ≤ 0xEF then
    let lo1 : Byte := if b = 0xE0 then 0xA0 else 0x80
    let hi1 : Byte := if b = 0xED then 0x9F else 0xBF
    match rest with
    | b1 :: b2 :: _ =>
      if lo1 ≤ b1 && b1 ≤ hi1 then
        if isCont b2 then
          (Char.ofNat ((b - 0xE0) * 0x1000 + (b1 - 0x80) * 0x40 + (b2 - 0x80)), 2)
        else (replChar, 1)
      else (replChar, 0)
    | [b1] => if lo1 ≤ b1 && b1 ≤ hi1 then (replChar, 1) else (replChar, 0)
    | [] => (replChar, 0)
  else if 0xF0 ≤ b && b ≤ 0xF4 then
    let lo1 : Byte := if b = 0xF0 then 0x90 else 0x80
    let hi1 : Byte := if b = 0xF4 then 0x8F else 0xBF
    match rest with
    | b1 :: b2 :: b3 :: _ =>
      if lo1 ≤ b1 && b1 ≤ hi1 then
        if isCont b2 then
          if isCont b3 then
            (Char.ofNat
              ((b - 0xF0) * 0x40000 + (b1 - 0x80) * 0x1000 + (b2 - 0x80) * 0x40 + (b3 - 0x80)), 3)
          else (replChar, 2)
        else (replChar, 1)
      else (replChar, 0)
    | [b1, b2] =>
      if lo1 ≤ b1 && b1 ≤ hi1 then
        if isCont b2 then (replChar, 2) else (replChar, 1)
      else (replChar, 0)
    | [b1] => if lo1 ≤ b1 && b1 ≤ hi1 then (replChar, 1) else (replChar, 0)
    | [] => (replChar, 0)
  else (replChar, 0)

/-- Rust's `String::from_utf8_lossy` on a byte sequence, as a character
list, with an explicit step bound so the recursion is structural. Each
step consumes at least the first byte, so `fuel := bs.length` steps
always suffice (see `lossyDecode`). -/
def lossyDecodeAux : Nat → List Byte → List Char
  | 0, _ => []
  | _, [] => []
  | fuel + 1, b :: rest =>
    let s := decodeStep b rest
    s.1 :: lossyDecodeAux fuel (rest.drop s.2)

/-- Rust's `String::from_utf8_lossy` on a byte sequence, as a character
list. -/
def lossyDecode (bs : List Byte) : List Char := lossyDecodeAux bs.length bs

/-- `String::from_utf8_lossy(..).to_string()`. -/
def lossyString (bs : List Byte) : String := ⟨lossyDecode bs⟩

/-! ## Output Relay (reader thread, main.rs lines 73-85) -/

/-- The relay's read buffer size: `let mut buf = [0u8; 4096];`. -/
def BUF_LEN : Nat := 4096

/-- What one `reader.read(&mut buf)` call can transfer when `avail` bytes
are available: at most the buffer's 4096 bytes. -/
def readIntoBuf (avail : List Byte) : List Byte := avail.take BUF_LEN

/-- The outcome of one `reader.read(&mut buf)` call: `Ok(n)` delivering
the chunk `buf[..n]` (with `n = 0` meaning EOF), or `Err(_)`. -/
inductive ReadResult where
  | bytes (chunk : List Byte)
  | ioError

/-- The relay loop: given the successive outcomes of the `read` calls, the
`pty-output` events emitted in order. `Ok(0)` breaks the loop (EOF) with
no event; `Ok(n)` with `n > 0` emits one event whose payload is the lossy
decoding of the chunk and continues; `Err(_)` breaks with no event. -/
def relayEvents : List ReadResult → List Event
  | [] => []
  | ReadResult.bytes [] :: _ => []
  | ReadResult.bytes (b :: bs) :: rest =>
    Event.output (lossyString (b :: bs)) :: relayEvents rest
  | ReadResult.ioError :: _ => []

/-! ## Exit Watcher (wait thread, main.rs lines 88-94) -/

/-- The watcher thread: `if let Ok(status) = child.wait()` emits exactly
one `pty-exit` event carrying `status.exit_code()`; a failed wait emits
nothing. The parameter is the outcome of `wait()` with the exit code
already extracted. -/
def watcherEvents : Except String Nat → List Event
  | .ok code => [Event.exit code]
  | .error _ => []

/-! ## Interleaving of the two background threads

The relay and the watcher are separate OS threads emitting to the same
sink with no synchronisation between them, so the sink can observe any
interleaving of the two per-thread event sequences. -/

/-- `Interleaving xs ys zs`: `zs` is an order-preserving merge of `xs`
and `ys`. -/
inductive Interleaving : List Event → List Event → List Event → Prop where
  | nil : Interleaving [] [] []
  | left {x : Event} {xs ys zs : List Event} :
      Interleaving xs ys zs → Interleaving (x :: xs) ys (x :: zs)
  | right {y : Event} {xs ys zs : List Event} :
      Interleaving xs ys zs → Interleaving xs (y :: ys) (y :: zs)

/-- The event sequences one session can present to the sink: any
interleaving of the relay's events with the watcher's events. -/
def SessionTrace (reads : List ReadResult) (waitResult : Except String Nat)
    (tr : List Event) : Prop :=
  Interleaving (relayEvents reads) (watcherEvents waitResult) tr

/-- `true` iff no `pty-output` event occurs after a `pty-exit` event in
the trace. -/
def noOutputAfterExit : List Event → Bool
  | [] => true
  | Event.exit _ :: rest => rest.all (fun e => !e.isOutput)
  | Event.output _ :: rest => noOutputAfterExit rest

/-! ## Working-directory resolution (main.rs lines 34-55) -/

/-- A directory as its component list from the filesystem root; `[]` is
the root itself, whose `parent()` is `None` in Rust. -/
abbrev Path := List String

/-- `path.parent()`: `None` at the root, otherwise the path with its last
component removed. -/
def parentDir : Path → Option Path
  | [] => none
  | p => some p.dropLast

/-- The `for _ in 0..10` walk of `spawn_pty`: check the current directory
for `pyproject.toml` (`hasMarker dir` models
`search_dir.join("pyproject.toml").exists()`); if present, that directory
is the working directory and the loop breaks; otherwise step to the
parent, or break with no result at the root; at most `fuel` directories
are examined (the source starts with fuel 10). -/
def findProjectRoot (hasMarker : Path → Bool) : Nat → Path → Option Path
  | 0, _ => none
  | n + 1, dir =>
    if hasMarker dir then some dir
    else
      match parentDir dir with
      | some p => findProjectRoot hasMarker n p
      | none => none

/-- The working directory `spawn_pty` gives the command: nothing when the
running executable's directory is unknown (`current_exe` failed or had no
parent), otherwise the result of the bounded upward walk from it. -/
def resolveCwd (hasMarker : Path → Bool) (exeDir : Option Path) : Option Path :=
  match exeDir with
  | none => none
  | some dir => findProjectRoot hasMarker 10 dir

/-- A directory followed by all of its ancestors up to and including the
filesystem root. -/
def ancestorChain : Path → List Path
  | [] => [[]]
  | a :: l => (a :: l) :: ancestorChain (a :: l).dropLast
termination_by p => p.length
decreasing_by
  simp only [List.length_dropLast, List.length_cons]
  omega

/-- Modelled from the spec's words for comparison with the code: "walking
upward from the running program's own location through successive parent
directories (bounded to a fixed maximum number of hops, e.g. 10) looking
for a project-marker file" — the first of the starting directory and its
ancestors, among at most 10 candidates, that carries the marker. -/
def specCwd (hasMarker : Path → Bool) (start : Path) : Option Path :=
  ((ancestorChain start).take 10).find? hasMarker

/-! ## Concrete instances used by witnesses -/

/-- A writer whose `write_all` and `flush` always succeed. -/
def wOk : Writer := { writeOutcome := fun _ => .ok (), flushOutcome := .ok () }

/-- A writer whose `write_all` always fails with an I/O error. -/
def wFail : Writer := { writeOutcome := fun _ => .error "io", flushOutcome := .ok () }

/-- A master handle whose `resize` always succeeds. -/
def mOk : MasterPty := { resizeOutcome := fun _ => .ok () }

/-- A PTY pair built from the always-succeeding handles. -/
def pairOk : PtyPair := { writer := wOk, master := mOk }

/-- An environment whose `openpty` fails and everything else succeeds. -/
def envFail : SpawnEnv :=
  { openptyResult := fun _ => .error "boom"
    spawnResult := .ok ()
    cloneReaderResult := .ok ()
    takeWriterResult := .ok () }

/-- An environment in which all four fallible calls succeed. -/
def envOk : SpawnEnv :=
  { openptyResult := fun _ => .ok pairOk
    spawnResult := .ok ()
    cloneReaderResult := .ok ()
    takeWriterResult := .ok () }

/-- A state holding a prior session's handles in both slots. -/
def statePrior : PtyState := { writer := some wOk, master := some mOk }

/-! ## Helper lemmas -/

/-- Every event the relay emits is a `pty-output` event. -/
theorem relayEvents_isOutput (reads : List ReadResult) :
    ∀ e ∈ relayEvents reads, e.isOutput = true := by
  induction reads with
  | nil => intro e he; simp [relayEvents] at he
  | cons r rest ih =>
    intro e he
    match r with
    | ReadResult.ioError => simp [relayEvents] at he
    | ReadResult.bytes [] => simp [relayEvents] at he
    | ReadResult.bytes (b :: bs) =>
      simp only [relayEvents, List.mem_cons] at he
      rcases he with rfl | h
      · rfl
      · exact ih e h

/-- An event is a `pty-exit` event iff it is not a `pty-output` event. -/
theorem Event.isExit_eq_not_isOutput (e : Event) : e.isExit = !e.isOutput := by
  cases e <;> rfl

/-- The watcher emits only `pty-exit` events, and at most one of them. -/
theorem watcherEvents_shape (r : Except String Nat) :
    (∀ e ∈ watcherEvents r, e.isOutput = false) ∧
    (∀ e ∈ watcherEvents r, e.isExit = true) ∧
    (watcherEvents r).length ≤ 1 := by
  cases r with
  | error e => simp [watcherEvents]
  | ok c => simp [watcherEvents, Event.isOutput, Event.isExit]

/-- Filtering an interleaving by a predicate true on all of the left list
and false on all of the right list recovers the left list. -/
theorem interleaving_filter_eq_left {p : Event → Bool} {xs ys zs : List Event}
    (h : Interleaving xs ys zs)
    (hx : ∀ x ∈ xs, p x = true) (hy : ∀ y ∈ ys, p y = false) :
    zs.filter p = xs := by
  revert hx hy
  induction h with
  | nil => intro _ _; rfl
  | @left x xs' ys' zs' h ih =>
    intro hx hy
    have hpx := hx x (List.mem_cons_self _ _)
    have hrec := ih (fun a ha => hx a (List.mem_cons_of_mem _ ha)) hy
    simp [List.filter_cons, hpx, hrec]
  | @right y xs' ys' zs' h ih =>
    intro hx hy
    have hpy := hy y (List.mem_cons_self _ _)
    have hrec := ih hx (fun a ha => hy a (List.mem_cons_of_mem _ ha))
    simp [List.filter_cons, hpy, hrec]

/-- Filtering an interleaving by a predicate false on all of the left
list and true on all of the right list recovers the right list. -/
theorem interleaving_filter_eq_right {p : Event → Bool} {xs ys zs : List Event}
    (h : Interleaving xs ys zs)
    (hx : ∀ x ∈ xs, p x = false) (hy : ∀ y ∈ ys, p y = true) :
    zs.filter p = ys := by
  revert hx hy
  induction h with
  | nil => intro _ _; rfl
  | @left x xs' ys' zs' h ih =>
    intro hx hy
    have hpx := hx x (List.mem_cons_self _ _)
    have hrec := ih (fun a ha => hx a (List.mem_cons_of_mem _ ha)) hy
    simp [List.filter_cons, hpx, hrec]
  | @right y xs' ys' zs' h ih =>
    intro hx hy
    have hpy := hy y (List.mem_cons_self _ _)
    have hrec := ih hx (fun a ha => hy a (List.mem_cons_of_mem _ ha))
    simp [List.filter_cons, hpy, hrec]

/-- `findProjectRoot` with fuel `n` returns the first of the starting
directory's first `n` ancestors (innermost first) that carries the
marker. -/
theorem findProjectRoot_eq_find (hasMarker : Path → Bool) :
    ∀ (n : Nat) (start : Path),
      findProjectRoot hasMarker n start =
        ((ancestorChain start).take n).find? hasMarker := by
  intro n
  induction n with
  | zero => intro start; rfl
  | succ n ih =>
    intro start
    rcases start with _ | ⟨a, l⟩
    · cases h : hasMarker [] <;>
        simp [findProjectRoot, ancestorChain, parentDir, h, List.find?]
    · cases h : hasMarker (a :: l) <;>
        simp [findProjectRoot, ancestorChain, parentDir, h, List.find?, ih]

/-! ## Claims -/

/-- Claim C1: every call to `spawn_pty` that returns an error leaves the
session state unchanged — the writer slot and the master slot hold
exactly the values they held before the call, so a prior session's
handles, if any, remain valid. -/
theorem spawn_pty_error_preserves_state (cols rows : Nat) (env : SpawnEnv)
    (s : PtyState) (e : String)
    (h : (spawn_pty cols rows env s).result = Except.error e) :
    (spawn_pty cols rows env s).state = s := by
  unfold spawn_pty at h ⊢
  rcases hop : env.openptyResult
      { rows := rows, cols := cols, pixel_width := 0, pixel_height := 0 } with e1 | pair <;>
    rcases hsp : env.spawnResult with e2 | u2 <;>
    rcases hcr : env.cloneReaderResult with e3 | u3 <;>
    rcases htw : env.takeWriterResult with e4 | u4 <;>
    simp_all

/-- Witness for C1: a failing `openpty` call returns its error and leaves
a state holding a prior session's handles untouched. -/
theorem spawn_pty_error_preserves_state_witness :
    (spawn_pty 80 24 envFail statePrior).result = Except.error "boom" ∧
    (spawn_pty 80 24 envFail statePrior).state = statePrior :=
  ⟨rfl, spawn_pty_error_preserves_state 80 24 envFail statePrior "boom" rfl⟩

/-- Counterexample to claim C2 as stated: the relay thread and the
watcher thread emit to the sink with no synchronisation, so the sink can
observe the session's `pty-exit` event before one of its `pty-output`
events. Concretely, for a session whose relay reads the chunk `"A"` and
whose wait succeeds with code 0, the trace `[exit 0, output "A"]` is a
possible session trace, and it has an output event after the exit
event. -/
theorem output_after_exit_possible :
    lossyString [65] = "A" ∧
    ∃ tr, SessionTrace [ReadResult.bytes [65], ReadResult.bytes []] (Except.ok 0) tr ∧
      noOutputAfterExit tr = false := by
  refine ⟨by decide, [Event.exit 0, Event.output (lossyString [65])], ?_, by decide⟩
  exact Interleaving.right (Interleaving.left Interleaving.nil)

/-- Claim C2 amended: in every possible session trace the `pty-output`
events appear exactly in producer order — the trace's output subsequence
is the relay's event sequence — and at most one `pty-exit` event occurs;
but the `pty-exit` event is not ordered after the outputs and may be
followed by `pty-output` events. -/
theorem session_trace_order (reads : List ReadResult)
    (waitResult : Except String Nat) (tr : List Event)
    (h : SessionTrace reads waitResult tr) :
    tr.filter Event.isOutput = relayEvents reads ∧
    (tr.filter Event.isExit).length ≤ 1 := by
  have hout : tr.filter Event.isOutput = relayEvents reads :=
    interleaving_filter_eq_left h (relayEvents_isOutput reads)
      (watcherEvents_shape waitResult).1
  have hxf : ∀ x ∈ relayEvents reads, Event.isExit x = false := by
    intro x hx
    rw [Event.isExit_eq_not_isOutput, relayEvents_isOutput reads x hx]
    rfl
  have hexit : tr.filter Event.isExit = watcherEvents waitResult :=
    interleaving_filter_eq_right h hxf (watcherEvents_shape waitResult).2.1
  exact ⟨hout, hexit ▸ (watcherEvents_shape waitResult).2.2⟩

/-- Witness for the amended C2 at the counterexample trace: the output
subsequence is the relay's event list and the exit count is at most 1. -/
theorem session_trace_order_witness :
    ([Event.exit 0, Event.output (lossyString [65])].filter Event.isOutput =
      relayEvents [ReadResult.bytes [65], ReadResult.bytes []]) ∧
    (([Event.exit 0, Event.output (lossyString [65])].filter Event.isExit).length ≤ 1) :=
  session_trace_order [ReadResult.bytes [65], ReadResult.bytes []] (Except.ok 0)
    [Event.exit 0, Event.output (lossyString [65])]
    (Interleaving.right (Interleaving.left Interleaving.nil))

/-- Counterexample to claim C3 as stated: `spawn_pty` stores the writer
and the master under two separate mutexes, one assignment after the
other, so the intermediate state — writer slot filled, master slot still
empty — is observable by concurrent calls: starting from the empty state,
the middle state of the store sequence holds the new writer and no
master, a `write_pty` issued there reaches the new writer (its bytes go
through), while a `resize_pty` issued there is a no-op sending no request
to the backend. -/
theorem spawn_window_observable :
    (spawnStateTrace pairOk { writer := none, master := none }).get? 1 =
      some { writer := some wOk, master := none } ∧
    (write_pty [65] { writer := some wOk, master := none }).1.sinkBytes = [65] ∧
    (resize_pty 120 40 { writer := some wOk, master := none }).1.requests = [] :=
  ⟨rfl, rfl, rfl⟩

/-- Claim C3 amended: during `spawn_pty` from the empty initial state the
writer is stored strictly before the master, so a concurrent call can
observe the writer set while the master is still unset; the converse
window never occurs — every observable state of the store sequence whose
master slot is filled also has the writer slot filled with the new
writer. -/
theorem spawn_window_one_sided (pair : PtyPair) (st : PtyState)
    (h : st ∈ spawnStateTrace pair { writer := none, master := none }) :
    st.master.isSome = true → st.writer = some pair.writer := by
  simp only [spawnStateTrace, List.mem_cons, List.not_mem_nil, or_false] at h
  rcases h with rfl | rfl | rfl
  · intro hm; simp at hm
  · intro hm; simp at hm
  · intro _; rfl

/-- Witness for the amended C3: the final state of the store sequence has
its master slot filled and indeed holds the new writer. -/
theorem spawn_window_one_sided_witness :
    ({ writer := some pairOk.writer, master := some pairOk.master } : PtyState).writer =
      some pairOk.writer :=
  spawn_window_one_sided pairOk
    { writer := some pairOk.writer, master := some pairOk.master }
    (by simp [spawnStateTrace]) rfl

/-- Claim C4: `write_pty` succeeds as a no-op when no writer is stored
(in particular before any `spawn_pty`: no error, no panic — the function
is total); when a writer is stored it writes all of `data`'s bytes and
then flushes, and any I/O failure (of the write or of the flush) is
returned as an error to the caller. -/
theorem write_pty_contract (data : List Byte) (s : PtyState) :
    (s.writer = none →
      write_pty data s = ({ result := .ok (), sinkBytes := [], flushed := false }, s)) ∧
    (∀ w, s.writer = some w →
      (∀ e, w.writeOutcome data = .error e →
        (write_pty data s).1.result = .error e ∧ (write_pty data s).2 = s) ∧
      (w.writeOutcome data = .ok () →
        (write_pty data s).1.sinkBytes = data ∧
        (∀ e, w.flushOutcome = .error e → (write_pty data s).1.result = .error e) ∧
        (w.flushOutcome = .ok () →
          (write_pty data s).1 =
            { result := .ok (), sinkBytes := data, flushed := true }))) := by
  refine ⟨fun hn => by simp [write_pty, hn], fun w hw => ⟨fun e he => ?_, fun hok => ?_⟩⟩
  · simp [write_pty, hw, he]
  · refine ⟨?_, fun e he => ?_, fun hf => ?_⟩
    · rcases hf : w.flushOutcome with e' | u <;> simp [write_pty, hw, hok, hf]
    · simp [write_pty, hw, hok, he]
    · simp [write_pty, hw, hok, hf]

/-- Witness for C4: with no writer stored, a write is a successful no-op;
with a stored writer whose I/O succeeds, the bytes all reach the sink and
the flush happens. -/
theorem write_pty_contract_witness :
    write_pty [7] { writer := none, master := none } =
      ({ result := .ok (), sinkBytes := [], flushed := false },
        { writer := none, master := none }) ∧
    (write_pty [7] statePrior).1 =
      { result := .ok (), sinkBytes := [7], flushed := true } :=
  ⟨(write_pty_contract [7] { writer := none, master := none }).1 rfl,
   (((write_pty_contract [7] statePrior).2 wOk rfl).2 rfl).2.2 rfl⟩

/-- Claim C5: when the child's `wait` succeeds with exit code `c`, the
exit watcher emits exactly one `pty-exit` event — the singleton list
`[exit c]`, never zero events, never more than one; when the `wait` call
fails, no event is emitted. -/
theorem watcher_exactly_once (r : Except String Nat) :
    (∀ c, r = Except.ok c → watcherEvents r = [Event.exit c]) ∧
    (∀ e, r = Except.error e → watcherEvents r = []) := by
  constructor <;> rintro x rfl <;> rfl

/-- Witness for C5: a wait that succeeds with code 7 produces exactly the
one event `exit 7`; a failed wait produces no event. -/
theorem watcher_exactly_once_witness :
    watcherEvents (Except.ok 7) = [Event.exit 7] ∧
    watcherEvents (Except.error "wait failed") = [] :=
  ⟨(watcher_exactly_once (Except.ok 7)).1 7 rfl,
   (watcher_exactly_once (Except.error "wait failed")).2 "wait failed" rfl⟩

/-- Claim C6: the relay reads through a 4096-byte buffer, so no chunk
exceeds 4096 bytes; for every read returning `n > 0` bytes it emits
exactly one `pty-output` event whose payload is the lossy UTF-8 decoding
of those `n` bytes, events in producer order; a read returning 0 bytes
(EOF) ends the loop with no further events, and a read error ends it
identically with the error swallowed. -/
theorem relay_contract (chunks : List (List Byte)) (stop : ReadResult)
    (rest : List ReadResult)
    (hne : ∀ c ∈ chunks, c ≠ [])
    (hstop : stop = ReadResult.bytes [] ∨ stop = ReadResult.ioError) :
    relayEvents (chunks.map ReadResult.bytes ++ stop :: rest) =
      chunks.map (fun c => Event.output (lossyString c)) ∧
    ∀ avail : List Byte, (readIntoBuf avail).length ≤ 4096 := by
  constructor
  · revert hne
    induction chunks with
    | nil =>
      intro _
      rcases hstop with h | h <;> subst h <;> rfl
    | cons c cs ih =>
      intro hne
      have hc : c ≠ [] := hne c (List.mem_cons_self _ _)
      rcases c with _ | ⟨b, bs⟩
      · exact absurd rfl hc
      · simp only [List.map_cons, List.cons_append, relayEvents]
        exact congrArg (List.cons _) (ih (fun x hx => hne x (List.mem_cons_of_mem _ hx)))
  · intro avail
    simp only [readIntoBuf, BUF_LEN, List.length_take]
    omega

/-- Witness for C6: a run that reads "A", then an invalid-UTF-8 chunk,
then EOF (with one more read outcome queued after the EOF, which is never
reached) emits exactly the two decoded output events in order. -/
theorem relay_contract_witness :
    relayEvents ([[65], [255, 66]].map ReadResult.bytes ++
      ReadResult.bytes [] :: [ReadResult.bytes [67]]) =
      [[65], [255, 66]].map (fun c => Event.output (lossyString c)) :=
  (relay_contract [[65], [255, 66]] (ReadResult.bytes []) [ReadResult.bytes [67]]
    (by decide) (Or.inl rfl)).1

/-- Claim C7: with a master stored, `resize_pty cols rows` issues to the
PTY backend exactly one resize request with those cells and zero pixel
fields; with no master stored the call is a silent successful no-op
issuing no request. -/
theorem resize_pty_contract (cols rows : Nat) (s : PtyState) :
    (s.master = none →
      resize_pty cols rows s = ({ result := .ok (), requests := [] }, s)) ∧
    (∀ m, s.master = some m →
      (resize_pty cols rows s).1.requests =
        [{ rows := rows, cols := cols, pixel_width := 0, pixel_height := 0 }]) := by
  refine ⟨fun hn => by simp [resize_pty, hn], fun m hm => ?_⟩
  rcases hr : m.resizeOutcome
      { rows := rows, cols := cols, pixel_width := 0, pixel_height := 0 } with e | u <;>
    simp [resize_pty, hm, hr]

/-- Witness for C7: `resize_pty 120 40` with a master stored issues
exactly the request `{cols := 120, rows := 40, pixels := 0}`; with no
master it is a successful no-op. -/
theorem resize_pty_contract_witness :
    (resize_pty 120 40 statePrior).1.requests =
      [{ rows := 40, cols := 120, pixel_width := 0, pixel_height := 0 }] ∧
    resize_pty 120 40 { writer := none, master := none } =
      ({ result := .ok (), requests := [] }, { writer := none, master := none }) :=
  ⟨(resize_pty_contract 120 40 statePrior).2 mOk rfl,
   (resize_pty_contract 120 40 { writer := none, master := none }).1 rfl⟩

/-- Claim C8: the working-directory resolver walks upward from the
running program's own directory through at most 10 directories looking
for `pyproject.toml`: it computes exactly the spec's description — the
first marker-carrying directory among the starting directory and its
ancestors, at most 10 candidates — and leaves the working directory unset
when the bound is exhausted or the root is passed; it is a total function
and never fails. -/
theorem resolveCwd_matches_spec (hasMarker : Path → Bool) (start : Path) :
    resolveCwd hasMarker (some start) = specCwd hasMarker start ∧
    ((ancestorChain start).take 10).length ≤ 10 := by
  constructor
  · show findProjectRoot hasMarker 10 start = specCwd hasMarker start
    rw [findProjectRoot_eq_find hasMarker 10 start]
    rfl
  · simp only [List.length_take]
    omega

/-- Claim C9: neither `spawn_pty` nor `resize_pty` validates its
dimensions: every `u16` value of `cols` and `rows`, including 0, is
forwarded unchanged to the PTY backend with zero pixel fields, and with a
cooperating backend neither call rejects any dimension value with an
error. -/
theorem no_dimension_validation (cols rows : Nat)
    (hc : cols < 65536) (hr : rows < 65536)
    (env : SpawnEnv) (s : PtyState) (m : MasterPty) :
    (spawn_pty cols rows env s).request =
      { rows := rows, cols := cols, pixel_width := 0, pixel_height := 0 } ∧
    (s.master = some m →
      (resize_pty cols rows s).1.requests =
        [{ rows := rows, cols := cols, pixel_width := 0, pixel_height := 0 }]) ∧
    (∀ pair,
      env.openptyResult
          { rows := rows, cols := cols, pixel_width := 0, pixel_height := 0 } =
        .ok pair →
      env.spawnResult = .ok () → env.cloneReaderResult = .ok () →
      env.takeWriterResult = .ok () →
      (spawn_pty cols rows env s).result = .ok ()) ∧
    (s.master = some m →
      m.resizeOutcome
          { rows := rows, cols := cols, pixel_width := 0, pixel_height := 0 } =
        .ok () →
      (resize_pty cols rows s).1.result = .ok ()) := by
  refine ⟨?_, fun hm => ?_, fun pair h1 h2 h3 h4 => ?_, fun hm hr2 => ?_⟩
  · rcases hop : env.openptyResult
        { rows := rows, cols := cols, pixel_width := 0, pixel_height := 0 } with e | p <;>
      rcases hsp : env.spawnResult with e | u <;>
      rcases hcr : env.cloneReaderResult with e | u <;>
      rcases htw : env.takeWriterResult with e | u <;>
      simp [spawn_pty, hop, hsp, hcr, htw]
  · exact (resize_pty_contract cols rows s).2 m hm
  · simp [spawn_pty, h1, h2, h3, h4]
  · simp [resize_pty, hm, hr2]

/-- Witness for C9: the zero dimensions are accepted end to end — the
backend receives `{cols := 0, rows := 0, pixels := 0}` from both calls
and neither call errors. -/
theorem no_dimension_validation_witness :
    (spawn_pty 0 0 envOk statePrior).request =
      { rows := 0, cols := 0, pixel_width := 0, pixel_height := 0 } ∧
    (spawn_pty 0 0 envOk statePrior).result = .ok () ∧
    (resize_pty 0 0 statePrior).1.requests =
      [{ rows := 0, cols := 0, pixel_width := 0, pixel_height := 0 }] ∧
    (resize_pty 0 0 statePrior).1.result = .ok () := by
  have h := no_dimension_validation 0 0 (by decide) (by decide) envOk statePrior mOk
  exact ⟨h.1, h.2.2.1 pairOk rfl rfl rfl rfl, h.2.1 rfl, h.2.2.2 rfl rfl⟩

/-- Claim C10: a `write_pty` call that returns an I/O error does not
clear or replace the stored writer: the session state after the failed
call equals the session state before it, so a subsequent call still
addresses the same writer. -/
theorem write_pty_error_keeps_writer (data : List Byte) (s : PtyState) (e : String)
    (h : (write_pty data s).1.result = Except.error e) :
    (write_pty data s).2 = s := by
  rcases hw : s.writer with _ | w
  · simp [write_pty, hw]
  · rcases ho : w.writeOutcome data with e' | u
    · simp [write_pty, hw, ho]
    · rcases hf : w.flushOutcome with e' | u' <;> simp [write_pty, hw, ho, hf]

/-- Witness for C10: a writer whose `write_all` fails reports the error
while the state — including the stored writer — is exactly what it was
before the call. -/
theorem write_pty_error_keeps_writer_witness :
    (write_pty [1] { writer := some wFail, master := none }).1.result =
      Except.error "io" ∧
    (write_pty [1] { writer := some wFail, master := none }).2 =
      { writer := some wFail, master := none } :=
  ⟨rfl, write_pty_error_keeps_writer [1] { writer := some wFail, master := none } "io" rfl⟩

end Doctown
